import Mathlib

/-!
Shallow embedding of the weather-agent backend (main.py, src/handlers.py,
src/file_search_tool.py, src/weather_api_client.py).

External services (two LLM providers, the retrieval provider, the weather
HTTP provider) are modelled as oracles: functions supplied as parameters
whose outcomes (`Except` success/error, HTTP status plus body) the embedded
control flow inspects exactly as the Python code inspects its call results.
Every call the code issues to an external provider is recorded in a trace
list, so "issues zero external calls" is a statement about the trace.

Python dynamic values (JSON payloads, dicts) are modelled by `PyVal`;
`dict.get` on a non-dict value raises `AttributeError` in Python, which the
embedding reflects as `Except.error`.  Numeric JSON leaves are modelled as
integers or strings; `str()` rendering of container values is abstracted
(no claim depends on it).
-/

/-! ## Python string primitives used by the code -/

/-- Python `s.lower()` (ASCII case folding, as used on the ASCII messages here). -/
def lowerStr (s : String) : String := ⟨s.data.map Char.toLower⟩

/-- Python `s.upper()`. -/
def upperStr (s : String) : String := ⟨s.data.map Char.toUpper⟩

/-- Python `s.strip()`: remove leading and trailing whitespace. -/
def pyStrip (s : String) : String :=
  ⟨((s.data.dropWhile Char.isWhitespace).reverse.dropWhile Char.isWhitespace).reverse⟩

/-- Python `s.replace(c, "")` for a single-character pattern: drop every occurrence. -/
def removeChar (c : Char) (s : String) : String := ⟨s.data.filter (· ≠ c)⟩

/-- Python `needle in hay` (substring test). -/
def strContains (hay needle : String) : Bool :=
  (List.range (hay.data.length + 1)).any fun i => needle.data.isPrefixOf (hay.data.drop i)

/-- Number of positions of `hay` at which `needle` starts (occurrence count). -/
def countOccur (hay needle : String) : Nat :=
  ((List.range (hay.data.length + 1)).filter
    fun i => needle.data.isPrefixOf (hay.data.drop i)).length

/-- Case-insensitive occurrence count, the notion used by the merge claims. -/
def countOccurCI (hay needle : String) : Nat := countOccur (lowerStr hay) (lowerStr needle)

/-! ## Python dynamic values -/

/-- A Python/JSON value as the code manipulates it. -/
inductive PyVal where
  | vstr (s : String)
  | vint (n : Int)
  | vnone
  | vdict (fields : List (String × PyVal))
  | vlist (xs : List PyVal)

/-- First-match association lookup (Python dict keys are unique). -/
def listLookup (fs : List (String × PyVal)) (k : String) : Option PyVal :=
  match fs with
  | [] => none
  | (k', v) :: rest => if k' = k then some v else listLookup rest k

/-- Python `d.get(k, default)`; on a non-dict receiver Python raises
`AttributeError`, modelled as `Except.error`. -/
def pyGet (v : PyVal) (k : String) (dflt : PyVal) : Except String PyVal :=
  match v with
  | .vdict fs => .ok ((listLookup fs k).getD dflt)
  | _ => .error "AttributeError"

/-- Lookup in a dict value (no default, no exception); statement-side accessor. -/
def dictLookup (v : PyVal) (k : String) : Option PyVal :=
  match v with
  | .vdict fs => listLookup fs k
  | _ => none

/-- Python `str()` of a value as used in f-strings.  Container rendering is
abstracted to a placeholder (no claim inspects it). -/
def pyStr : PyVal → String
  | .vstr s => s
  | .vint n => toString n
  | .vnone => "None"
  | .vdict _ => "<dict>"
  | .vlist _ => "<list>"

/-- Python `for x in v`: lists yield elements, strings yield one-character
strings, dicts yield their keys, other values raise `TypeError`. -/
def pyIter : PyVal → Except String (List PyVal)
  | .vlist xs => .ok xs
  | .vstr s => .ok (s.data.map fun c => .vstr (String.singleton c))
  | .vdict fs => .ok (fs.map fun kv => .vstr kv.1)
  | _ => .error "TypeError"

/-- Effectful map over a list in the `Except` monad (the forecast loop). -/
def mapMExcept (f : PyVal → Except String PyVal) : List PyVal → Except String (List PyVal)
  | [] => .ok []
  | x :: xs =>
    match f x with
    | .error e => .error e
    | .ok y =>
      match mapMExcept f xs with
      | .error e => .error e
      | .ok ys => .ok (y :: ys)

/-! ## WeatherAPIClient._clean_weather_data (weather_api_client.py:237-281) -/

/-- The `current` sub-dictionary built by `_clean_weather_data`. -/
def cleanCurrent (current_data : PyVal) : Except String PyVal := do
  let tempv ← pyGet current_data "temp_c" (.vstr "N/A")
  let feelsv ← pyGet current_data "feelslike_c" (.vstr "N/A")
  let condObj ← pyGet current_data "condition" (.vdict [])
  let condv ← pyGet condObj "text" (.vstr "N/A")
  let windv ← pyGet current_data "wind_kph" (.vstr "N/A")
  let windDir ← pyGet current_data "wind_dir" (.vstr "N/A")
  let humidv ← pyGet current_data "humidity" (.vstr "N/A")
  let cloudv ← pyGet current_data "cloud" (.vstr "N/A")
  let uvv ← pyGet current_data "uv" (.vstr "N/A")
  return .vdict [
    ("temp", .vstr (pyStr tempv ++ "°C")),
    ("feels_like", .vstr (pyStr feelsv ++ "°C")),
    ("condition", condv),
    ("wind", .vstr (pyStr windv ++ " kph")),
    ("wind_direction", windDir),
    ("humidity", .vstr (pyStr humidv ++ "%")),
    ("cloud_cover", .vstr (pyStr cloudv ++ "%")),
    ("uv_index", uvv)]

/-- One entry of the cleaned forecast list (the loop body of
`_clean_weather_data`). -/
def cleanForecastEntry (day : PyVal) : Except String PyVal := do
  let dayData ← pyGet day "day" (.vdict [])
  let datev ← pyGet day "date" (.vstr "N/A")
  let maxv ← pyGet dayData "maxtemp_c" (.vstr "N/A")
  let minv ← pyGet dayData "mintemp_c" (.vstr "N/A")
  let avgv ← pyGet dayData "avgtemp_c" (.vstr "N/A")
  let condObj ← pyGet dayData "condition" (.vdict [])
  let condv ← pyGet condObj "text" (.vstr "N/A")
  let rainv ← pyGet dayData "daily_chance_of_rain" (.vstr "N/A")
  let windv ← pyGet dayData "maxwind_kph" (.vstr "N/A")
  return .vdict [
    ("date", datev),
    ("max_temp", .vstr (pyStr maxv ++ "°C")),
    ("min_temp", .vstr (pyStr minv ++ "°C")),
    ("avg_temp", .vstr (pyStr avgv ++ "°C")),
    ("condition", condv),
    ("rain_chance", .vstr (pyStr rainv ++ "%")),
    ("max_wind", .vstr (pyStr windv ++ " kph"))]

/-- `WeatherAPIClient._clean_weather_data`: normalize the raw provider payload
into the compact snapshot dictionary.  `Except.error` models a raised Python
exception (`.get` on a non-dict, iteration over a non-iterable). -/
def cleanWeatherData (raw_data : PyVal) : Except String PyVal := do
  let locationData ← pyGet raw_data "location" (.vdict [])
  let currentData ← pyGet raw_data "current" (.vdict [])
  let forecastObj ← pyGet raw_data "forecast" (.vdict [])
  let forecastData ← pyGet forecastObj "forecastday" (.vlist [])
  let namev ← pyGet locationData "name" (.vstr "Unknown")
  let countryv ← pyGet locationData "country" (.vstr "Unknown")
  let localtv ← pyGet locationData "localtime" (.vstr "N/A")
  let current ← cleanCurrent currentData
  let days ← pyIter forecastData
  let entries ← mapMExcept cleanForecastEntry days
  return .vdict [
    ("location", .vstr (pyStr namev ++ ", " ++ pyStr countryv)),
    ("local_time", localtv),
    ("current", current),
    ("forecast", .vlist entries)]

/-- The payload's `forecast.forecastday` list (empty when missing); accessor
used only to state the per-entry correspondence. -/
def forecastdayOf (raw : PyVal) : List PyVal :=
  match raw with
  | .vdict fs =>
    match listLookup fs "forecast" with
    | some (.vdict ffs) =>
      match listLookup ffs "forecastday" with
      | some (.vlist ds) => ds
      | _ => []
    | _ => []
  | _ => []

/-! ## Schema conformance for the provider payload

`_clean_weather_data` assumes the provider-schema subtrees it touches are
dictionaries (a list for `forecastday`); on other shapes Python raises.
These decidable predicates express that assumption. -/

/-- The optional member is absent or a dict. -/
def isDictOpt : Option PyVal → Bool
  | none => true
  | some (.vdict _) => true
  | some _ => false

/-- The `current` subtree: a dict whose `condition` member, if present, is a dict. -/
def wellTypedCurrent : PyVal → Bool
  | .vdict cfs => isDictOpt (listLookup cfs "condition")
  | _ => false

/-- One `forecastday` element: a dict whose `day` member (if present) is a dict
whose `condition` member (if present) is a dict. -/
def wellTypedDay : PyVal → Bool
  | .vdict fs =>
    match listLookup fs "day" with
    | none => true
    | some (.vdict dfs) => isDictOpt (listLookup dfs "condition")
    | some _ => false
  | _ => false

/-- The optional `current` member: absent or a well-typed current subtree. -/
def wellTypedCurrentOpt : Option PyVal → Bool
  | none => true
  | some c => wellTypedCurrent c

/-- The optional `forecast` member: absent, or a dict whose `forecastday`
member (if present) is a list of well-typed day entries. -/
def wellTypedForecastObj : Option PyVal → Bool
  | none => true
  | some (.vdict ffs) =>
    match listLookup ffs "forecastday" with
    | none => true
    | some (.vlist ds) => ds.all wellTypedDay
    | some _ => false
  | some _ => false

/-- A raw payload dictionary conforming to the provider schema as far as
`_clean_weather_data` touches it. -/
def wellTypedPayload : PyVal → Bool
  | .vdict fs =>
    isDictOpt (listLookup fs "location") &&
    wellTypedCurrentOpt (listLookup fs "current") &&
    wellTypedForecastObj (listLookup fs "forecast")
  | _ => false

/-! ## WeatherAPIClient (weather_api_client.py) -/

/-- Outcome of the HTTP round trip issued by `_fetch_raw_weather`
(`requests.get`): a response with a status code and JSON body, a
`requests.Timeout`, another `requests.RequestException`, or any other
exception. -/
inductive HttpOutcome where
  | status (code : Int) (body : PyVal)
  | timeout
  | requestError
  | otherError

/-- Result dictionary of `_fetch_raw_weather`:
`{"success": True, "data": ...}` or `{"success": False, "error": ...}`. -/
inductive FetchResult where
  | success (data : PyVal)
  | failure (error : String)

/-- One external call issued during `get_weather`, in order. -/
inductive WCall where
  | extractCall (query : String)
  | gatewayFetch (location : String) (days : Int)
  | synthCall (query : String)
deriving DecidableEq, Repr

/-- Oracle for the external services `get_weather` consults: the extraction
LLM (its parsed JSON as optional city and optional days, or a raised
error), the weather HTTP provider, and the synthesis LLM. -/
structure WeatherOracle where
  extract : String → Except String (Option String × Option Int)
  fetchHttp : String → Int → HttpOutcome
  synth : String → PyVal → Except String String

/-- `days = max(1, min(days, MAX_FORECAST_DAYS))` with `MAX_FORECAST_DAYS = 7`. -/
def clampDays (d : Int) : Int := max 1 (min d 7)

/-- `WeatherAPIClient._extract_location_and_days`: normalize the LLM's JSON
(`"NULL"` city to absent, missing days to `DEFAULT_DAYS = 1`, clamp days);
`Except.error` models the raised `WeatherAPIError`. -/
def extractLocationAndDays (o : WeatherOracle) (user_query : String) :
    Except String (Option String × Int) :=
  match o.extract user_query with
  | .error e => .error e
  | .ok (cityRaw, daysRaw) =>
    let city : Option String :=
      match cityRaw with
      | some c => if c ≠ "" ∧ upperStr c = "NULL" then none else some c
      | none => none
    .ok (city, clampDays (daysRaw.getD 1))

/-- `WeatherAPIClient._fetch_raw_weather`: map the HTTP outcome to the tagged
success/error dictionary (400/401/403 special-cased, `raise_for_status` for
other 4xx/5xx, then `_clean_weather_data`; a cleaning exception is caught by
the generic handler). -/
def fetchRawWeather (o : WeatherOracle) (location : String) (days : Int) : FetchResult :=
  match o.fetchHttp location days with
  | .status code body =>
    if code = 400 then .failure "City not found"
    else if code = 401 then .failure "API authentication failed"
    else if code = 403 then .failure "API access denied"
    else if 400 ≤ code ∧ code < 600 then .failure "Failed to fetch weather data"
    else
      match cleanWeatherData body with
      | .ok cleaned => .success cleaned
      | .error _ => .failure "An unexpected error occurred"
  | .timeout => .failure "Request timed out"
  | .requestError => .failure "Failed to fetch weather data"
  | .otherError => .failure "An unexpected error occurred"

/-- `WeatherAPIClient._generate_conversational_response`: the synthesis LLM
call; on its failure, the templated fallback built from the snapshot fields
(whose `.get` accesses can themselves raise on an ill-shaped dict, modelled
as `Except.error`). -/
def generateConversationalResponse (o : WeatherOracle) (user_query : String)
    (weather_data : PyVal) : Except String String :=
  match o.synth user_query weather_data with
  | .ok content => .ok content
  | .error _ => do
    let current ← pyGet weather_data "current" (.vdict [])
    let location ← pyGet weather_data "location" (.vstr "Unknown")
    let temp ← pyGet current "temp" (.vstr "N/A")
    let condition ← pyGet current "condition" (.vstr "N/A")
    return "Weather in " ++ pyStr location ++ ": " ++ pyStr temp ++ ", " ++ pyStr condition ++ "."

/-- Result of `get_weather` together with the trace of external calls and
whether the phase-3 `except` handler (second templated fallback) ran. -/
structure GWResult where
  response : String
  calls : List WCall
  phase3Handler : Bool
deriving DecidableEq, Repr

/-- Fixed messages of `get_weather`. -/
def askLocationMsg : String := "Please ask me about the weather in a specific location."

def troubleUnderstandingMsg : String :=
  "I'm having trouble understanding your query. Could you rephrase it?"

def noCityMsg : String :=
  "I couldn't identify a city in your request. Could you please specify the location? " ++
  "For example: 'weather in London' or 'forecast for Paris'"

def cityNotFoundMsg (city : String) : String :=
  "I couldn't find weather data for '" ++ city ++
  "'. Please check the spelling or try a different location."

def techDifficultiesMsg : String := "I'm experiencing technical difficulties. Please try again later."

def tooLongMsg : String := "The weather service is taking too long to respond. Please try again."

def genericIssueMsg (err : String) : String := "I encountered an issue: " ++ err ++ ". Please try again."

/-- `WeatherAPIClient.get_weather` (weather_api_client.py:323-389): the main
orchestration.  `Except.error` models a Python exception escaping
`get_weather` itself (possible only from the phase-3 handler's own `.get`s). -/
def getWeather (o : WeatherOracle) (user_query : String) : Except String GWResult :=
  if user_query = "" ∨ pyStrip user_query = "" then
    .ok ⟨askLocationMsg, [], false⟩
  else
    match extractLocationAndDays o (pyStrip user_query) with
    | .error _ => .ok ⟨troubleUnderstandingMsg, [.extractCall (pyStrip user_query)], false⟩
    | .ok (cityOpt, days) =>
      match cityOpt with
      | none => .ok ⟨noCityMsg, [.extractCall (pyStrip user_query)], false⟩
      | some city =>
        if city = "" then .ok ⟨noCityMsg, [.extractCall (pyStrip user_query)], false⟩
        else
          match fetchRawWeather o city days with
          | .failure err =>
            if strContains (lowerStr err) "not found" then
              .ok ⟨cityNotFoundMsg city,
                   [.extractCall (pyStrip user_query), .gatewayFetch city days], false⟩
            else if strContains (lowerStr err) "authentication" ∨
                    strContains (lowerStr err) "denied" then
              .ok ⟨techDifficultiesMsg,
                   [.extractCall (pyStrip user_query), .gatewayFetch city days], false⟩
            else if strContains (lowerStr err) "timeout" then
              .ok ⟨tooLongMsg,
                   [.extractCall (pyStrip user_query), .gatewayFetch city days], false⟩
            else
              .ok ⟨genericIssueMsg err,
                   [.extractCall (pyStrip user_query), .gatewayFetch city days], false⟩
          | .success data =>
            match generateConversationalResponse o (pyStrip user_query) data with
            | .ok response =>
              .ok ⟨response,
                   [.extractCall (pyStrip user_query), .gatewayFetch city days,
                    .synthCall (pyStrip user_query)], false⟩
            | .error _ => do
              let location ← pyGet data "location" (.vstr "Unknown")
              let current ← pyGet data "current" (.vdict [])
              let temp ← pyGet current "temp" (.vstr "N/A")
              let condition ← pyGet current "condition" (.vstr "N/A")
              return ⟨"Weather in " ++ pyStr location ++ ": " ++ pyStr temp ++ ", " ++
                      pyStr condition ++ ".",
                      [.extractCall (pyStrip user_query), .gatewayFetch city days,
                       .synthCall (pyStrip user_query)], true⟩

/-! ## GeminiFileSearch.search (file_search_tool.py) and handle_theory
(handlers.py) -/

/-- One external call issued by the knowledge path, in order: the grounded
retrieval (RAG) call, the plain-chat fallback call, and the OpenAI synthesis
call of `generate_summarized_response`. -/
inductive KCall where
  | ragSearch (query : String)
  | chatMode (contents : String)
  | synthesis (userQuery : String) (context : String)
deriving DecidableEq, Repr

/-- Oracle for the Gemini provider: the configured store id (`None` models a
missing environment variable) and the outcomes of the two `generate_content`
calls (`Except.error e` carries `str(e)` of the raised exception). -/
structure GeminiOracle where
  storeId : Option String
  ragCall : String → Except String String
  chatCall : String → Except String String

/-- Python truthiness of an optional string (`if self.store_id`). -/
def pyTruthy : Option String → Bool
  | none => false
  | some s => s ≠ ""

/-- The greeting table of `GeminiFileSearch.search`. -/
def searchGreetings : List String :=
  ["hi", "hello", "hey", "hola", "namaste", "thanks", "thank you", "bye", "good morning"]

/-- `query.strip().lower().replace("!", "").replace(".", "")`. -/
def cleanedQuery (query : String) : String :=
  removeChar '.' (removeChar '!' (lowerStr (pyStrip query)))

def searchGreetingReply : String :=
  "Hello! 👋 I am your Weather Intelligence Assistant. Ask me for a **Forecast** " ++
  "(e.g., 'London Weather') or a **Concept** (e.g., 'What is a cyclone?')."

def rateLimitMsg : String :=
  "⚠️ **System Overload:** I'm receiving too many requests right now. " ++
  "Please wait 1 minute and try again!"

def connectFailMsg : String :=
  "I'm having trouble connecting to my knowledge base right now. Please try again later."

/-- The wrapped contents of the plain-chat fallback call. -/
def chatContents (query : String) : String :=
  "You are a helpful weather assistant. User says: " ++ query

/-- `GeminiFileSearch.search`: local greeting short-circuit, RAG attempt when
a store id is configured (its failure logged and falling through), plain-chat
fallback, and the outer handler mapping a raised error to the rate-limit or
connectivity message by the `"429"` substring test. -/
def geminiSearch (o : GeminiOracle) (query : String) : String × List KCall :=
  if searchGreetings.contains (cleanedQuery query) then
    (searchGreetingReply, [])
  else
    if pyTruthy o.storeId then
      match o.ragCall query with
      | .ok text => (text, [.ragSearch query])
      | .error _ =>
        match o.chatCall (chatContents query) with
        | .ok text => (text, [.ragSearch query, .chatMode (chatContents query)])
        | .error e =>
          (if strContains e "429" then rateLimitMsg else connectFailMsg,
           [.ragSearch query, .chatMode (chatContents query)])
    else
      match o.chatCall (chatContents query) with
      | .ok text => (text, [.chatMode (chatContents query)])
      | .error e =>
        (if strContains e "429" then rateLimitMsg else connectFailMsg,
         [.chatMode (chatContents query)])

/-- Oracle for `handle_theory`: the Gemini tool plus the OpenAI synthesis
call of `generate_summarized_response` (arguments: user query, raw context). -/
structure TheoryOracle where
  gemini : GeminiOracle
  synthesize : String → String → Except String String

/-- The greeting table of `handle_theory` (handlers.py:20). -/
def theoryGreetings : List String := ["hi", "hello", "hey", "hola"]

/-- The canned introduction of `handle_theory`. -/
def introText : String :=
  "Hello! I'm your Weather Intelligence Bot. Ask me about a city's forecast " ++
  "or a climate concept from your docs."

def noInfoMsg : String := "I couldn't find any information on that topic in my knowledge base."

def synthFailMsg : String := "I had trouble processing that document search."

/-- `generate_summarized_response` (handlers.py:34-64): join the chunks,
issue the grounded synthesis call, fixed apology on failure. -/
def generateSummarizedResponse (o : TheoryOracle) (user_query : String)
    (retrieved_chunks : List String) : String × List KCall :=
  let raw_context := String.intercalate "\n---\n" retrieved_chunks
  match o.synthesize user_query raw_context with
  | .ok content => (content, [.synthesis user_query raw_context])
  | .error _ => (synthFailMsg, [.synthesis user_query raw_context])

/-- `handle_theory` (handlers.py:18-31): local greeting check
(`user_query.lower().strip()` against the fixed list, no punctuation
stripping), then the Gemini search, then grounded synthesis. -/
def handleTheory (o : TheoryOracle) (user_query : String) : String × List KCall :=
  if theoryGreetings.contains (pyStrip (lowerStr user_query)) then
    (introText, [])
  else
    let res := geminiSearch o.gemini user_query
    if res.1 = "" then (noInfoMsg, res.2)
    else
      let g := generateSummarizedResponse o user_query [res.1]
      (g.1, res.2 ++ g.2)

/-! ## chat_endpoint session/merge logic (main.py:49-84) -/

/-- The dispatch decided by `chat_endpoint` after classification and memory
merging. -/
inductive ChatAction where
  | systemNoCity
  | liveWeather (enhancedQuery : String) (city : String)
  | theoryRoute (query : String)
deriving DecidableEq, Repr

/-- `enhanced_query = user_query if final_city.lower() in user_query.lower()
else f"{user_query} in {final_city}"`. -/
def mergeQuery (user_query final_city : String) : String :=
  if strContains (lowerStr user_query) (lowerStr final_city) then user_query
  else user_query ++ " in " ++ final_city

/-- The context-memory block of `chat_endpoint`: returns the new
`user_session["last_city"]` and `final_city`.  A detected city is written
only when truthy (non-`None`, non-empty) and not the literal `"NULL"`. -/
def sessionUpdate (last_city detected_city : Option String) : Option String × Option String :=
  match detected_city with
  | some c => if c ≠ "" ∧ c ≠ "NULL" then (some c, some c) else (last_city, last_city)
  | none => (last_city, last_city)

/-- Session memory after a sequence of requests whose classifications
detected the given cities, starting from `last_city`. -/
def sessionRun (last_city : Option String) (detected : List (Option String)) : Option String :=
  detected.foldl (fun m d => (sessionUpdate m d).1) last_city

/-- The routing part of `chat_endpoint` for one request: classification
output (intent and detected city) and the prior memory in, dispatch and new
memory out. -/
def chatEndpointStep (intent : Option String) (detectedCity : Option String)
    (last_city : Option String) (user_query : String) : ChatAction × Option String :=
  let s := sessionUpdate last_city detectedCity
  let finalCity := s.2
  if intent = some "weather" then
    match finalCity with
    | none => (.systemNoCity, s.1)
    | some c =>
      if c = "" then (.systemNoCity, s.1)
      else (.liveWeather (mergeQuery user_query c) c, s.1)
  else (.theoryRoute user_query, s.1)

/-! ## Concrete oracles used to evaluate the embedding on closed inputs -/

/-- Gemini oracle whose RAG call fails with a 429 error while the chat
fallback succeeds. -/
def oGeminiRag429 : GeminiOracle :=
  ⟨some "store-1", fun _ => .error "429 RESOURCE_EXHAUSTED: quota exceeded",
   fun _ => .ok "chat fallback answer"⟩

/-- Gemini oracle with no store configured whose chat call fails with a 429
error. -/
def oGeminiChat429 : GeminiOracle :=
  ⟨none, fun _ => .error "unreachable", fun _ => .error "got HTTP 429 from provider"⟩

/-- Theory oracle whose provider calls all succeed. -/
def oTheorySynthOk : TheoryOracle :=
  ⟨⟨some "store-1", fun _ => .ok "ragtext", fun _ => .ok "chat"⟩,
   fun _ _ => .ok "SYNTH-OUTPUT"⟩

/-- Weather oracle: extraction yields Paris with 9 days, the HTTP fetch
succeeds with an empty payload, synthesis succeeds. -/
def oWeatherBasic : WeatherOracle :=
  ⟨fun _ => .ok (some "Paris", some 9),
   fun _ _ => .status 200 (.vdict []),
   fun _ _ => .ok "sunny answer"⟩

/-- Weather oracle whose HTTP fetch answers status 400. -/
def oWeather400 : WeatherOracle :=
  ⟨fun _ => .ok (some "Atlantis", some 2),
   fun _ _ => .status 400 .vnone,
   fun _ _ => .ok "unused"⟩

/-- Weather oracle whose synthesis call fails. -/
def oWeatherSynthFail : WeatherOracle :=
  ⟨fun _ => .ok (some "Paris", none),
   fun _ _ => .status 200 (.vdict []),
   fun _ _ => .error "LLM down"⟩

/-- The fully defaulted snapshot produced from an empty payload. -/
def defaultSnapshot : PyVal :=
  .vdict [("location", .vstr "Unknown, Unknown"), ("local_time", .vstr "N/A"),
    ("current", .vdict [("temp", .vstr "N/A°C"), ("feels_like", .vstr "N/A°C"),
      ("condition", .vstr "N/A"), ("wind", .vstr "N/A kph"), ("wind_direction", .vstr "N/A"),
      ("humidity", .vstr "N/A%"), ("cloud_cover", .vstr "N/A%"), ("uv_index", .vstr "N/A")]),
    ("forecast", .vlist [])]

/-- A payload with one forecast day whose fields are all absent. -/
def rawOneDay : PyVal := .vdict [("forecast", .vdict [("forecastday", .vlist [.vdict []])])]

/-! ## Helper lemmas -/

theorem except_bind_ok {α β : Type} {x : Except String α} {f : α → Except String β} {b : β} :
    (x >>= f) = Except.ok b ↔ ∃ a, x = .ok a ∧ f a = .ok b := by
  cases x <;> simp [Bind.bind, Except.bind]

theorem except_pure_ok {α : Type} {y b : α} :
    (pure y : Except String α) = Except.ok b ↔ y = b := by
  simp [pure, Except.pure]

theorem ok_bind {α β : Type} (a : α) (f : α → Except String β) :
    ((Except.ok a : Except String α) >>= f) = f a := rfl

theorem strContains_of_parts (hay needle : String) (pre post : List Char)
    (h : hay.data = pre ++ (needle.data ++ post)) : strContains hay needle = true := by
  unfold strContains
  rw [List.any_eq_true]
  refine ⟨pre.length, List.mem_range.mpr ?_, ?_⟩
  · rw [h, List.length_append]; omega
  · rw [h, List.drop_left, List.isPrefixOf_iff_prefix]
    exact List.prefix_append _ _

theorem pyStrip_eq_empty (q : String) (h : q.data.all Char.isWhitespace = true) :
    pyStrip q = "" := by
  unfold pyStrip
  have h1 : q.data.dropWhile Char.isWhitespace = [] :=
    List.dropWhile_eq_nil_iff.mpr (by simpa [List.all_eq_true] using h)
  rw [h1]; rfl

theorem mapMExcept_ok_of_all (f : PyVal → Except String PyVal) (xs : List PyVal)
    (h : ∀ x ∈ xs, ∃ y, f x = .ok y) :
    ∃ ys, mapMExcept f xs = .ok ys ∧ ys.length = xs.length ∧
      ∀ i (h1 : i < xs.length) (h2 : i < ys.length), f xs[i] = .ok ys[i] := by
  induction xs with
  | nil => exact ⟨[], rfl, rfl, fun i h1 _ => absurd h1 (Nat.not_lt_zero i)⟩
  | cons x t ih =>
    obtain ⟨y, hy⟩ := h x (List.mem_cons_self x t)
    obtain ⟨ys, hys, hlen, hpt⟩ := ih fun z hz => h z (List.mem_cons_of_mem x hz)
    refine ⟨y :: ys, ?_, by simp [hlen], ?_⟩
    · unfold mapMExcept; rw [hy, hys]
    · intro i h1 h2
      cases i with
      | zero => simpa using hy
      | succ j =>
        have hj1 : j < t.length := by simpa using h1
        have hj2 : j < ys.length := by simpa using h2
        simpa using hpt j hj1 hj2

theorem clean_ok_shape (raw d : PyVal) (h : cleanWeatherData raw = .ok d) :
    ∃ loc lt tempS feelsS condv windS windDir humS cloudS uvv entries,
      d = .vdict [("location", .vstr loc), ("local_time", lt),
        ("current", .vdict [("temp", .vstr tempS), ("feels_like", .vstr feelsS),
          ("condition", condv), ("wind", .vstr windS), ("wind_direction", windDir),
          ("humidity", .vstr humS), ("cloud_cover", .vstr cloudS), ("uv_index", uvv)]),
        ("forecast", .vlist entries)] := by
  simp only [cleanWeatherData, except_bind_ok, except_pure_ok] at h
  obtain ⟨locD, _, curD, _, fObj, _, fData, _, namev, _, countryv, _, localtv, _,
    cur, hcur, days, _, entries, _, hd⟩ := h
  simp only [cleanCurrent, except_bind_ok, except_pure_ok] at hcur
  obtain ⟨tv, _, fv, _, co, _, cv, _, wv, _, wdv, _, hv, _, clv, _, uvv, _, hcur⟩ := hcur
  subst hcur
  exact ⟨_, _, _, _, _, _, _, _, _, _, _, hd.symm⟩

theorem genConv_ok_of_clean (o : WeatherOracle) (q : String) (raw d : PyVal)
    (h : cleanWeatherData raw = .ok d) :
    ∃ s, generateConversationalResponse o q d = .ok s := by
  obtain ⟨loc, lt, tS, fS, cv, wS, wd, hS, cS, uv, entries, hd⟩ := clean_ok_shape raw d h
  subst hd
  unfold generateConversationalResponse
  cases hsy : o.synth q (.vdict [("location", .vstr loc), ("local_time", lt),
      ("current", .vdict [("temp", .vstr tS), ("feels_like", .vstr fS),
        ("condition", cv), ("wind", .vstr wS), ("wind_direction", wd),
        ("humidity", .vstr hS), ("cloud_cover", .vstr cS), ("uv_index", uv)]),
      ("forecast", .vlist entries)]) with
  | ok c => exact ⟨c, rfl⟩
  | error e => exact ⟨_, rfl⟩

theorem cleanCurrent_ok_of_wt (v : PyVal) (h : wellTypedCurrent v = true) :
    ∃ d, cleanCurrent v = .ok d := by
  cases v with
  | vdict cfs =>
    simp only [wellTypedCurrent] at h
    cases hc : listLookup cfs "condition" with
    | none => exact ⟨_, by simp [cleanCurrent, pyGet, hc, ok_bind]; rfl⟩
    | some c =>
      rw [hc] at h
      cases c with
      | vdict dfs => exact ⟨_, by simp [cleanCurrent, pyGet, hc, ok_bind]; rfl⟩
      | vstr s => simp [isDictOpt] at h
      | vint n => simp [isDictOpt] at h
      | vnone => simp [isDictOpt] at h
      | vlist xs => simp [isDictOpt] at h
  | vstr s => simp [wellTypedCurrent] at h
  | vint n => simp [wellTypedCurrent] at h
  | vnone => simp [wellTypedCurrent] at h
  | vlist xs => simp [wellTypedCurrent] at h

theorem cleanForecastEntry_ok_of_wt (day : PyVal) (h : wellTypedDay day = true) :
    ∃ e, cleanForecastEntry day = .ok e := by
  cases day with
  | vdict fs =>
    simp only [wellTypedDay] at h
    cases hd : listLookup fs "day" with
    | none => exact ⟨_, by simp [cleanForecastEntry, pyGet, hd, ok_bind]; rfl⟩
    | some dv =>
      rw [hd] at h
      cases dv with
      | vdict dfs =>
        simp only [] at h
        cases hc : listLookup dfs "condition" with
        | none => exact ⟨_, by simp [cleanForecastEntry, pyGet, hd, hc, ok_bind]; rfl⟩
        | some cv =>
          rw [hc] at h
          cases cv with
          | vdict cfs => exact ⟨_, by simp [cleanForecastEntry, pyGet, hd, hc, ok_bind]; rfl⟩
          | vstr s => simp [isDictOpt] at h
          | vint n => simp [isDictOpt] at h
          | vnone => simp [isDictOpt] at h
          | vlist xs => simp [isDictOpt] at h
      | vstr s => simp at h
      | vint n => simp at h
      | vnone => simp at h
      | vlist xs => simp at h
  | vstr s => simp [wellTypedDay] at h
  | vint n => simp [wellTypedDay] at h
  | vnone => simp [wellTypedDay] at h
  | vlist xs => simp [wellTypedDay] at h

theorem getD_dict_of_isDictOpt (o : Option PyVal) (h : isDictOpt o = true) :
    ∃ lfs, o.getD (.vdict []) = .vdict lfs := by
  cases o with
  | none => exact ⟨[], rfl⟩
  | some v =>
    cases v with
    | vdict lfs => exact ⟨lfs, rfl⟩
    | vstr s => simp [isDictOpt] at h
    | vint n => simp [isDictOpt] at h
    | vnone => simp [isDictOpt] at h
    | vlist xs => simp [isDictOpt] at h

theorem currentData_wt (fs : List (String × PyVal))
    (h : wellTypedCurrentOpt (listLookup fs "current") = true) :
    wellTypedCurrent ((listLookup fs "current").getD (.vdict [])) = true := by
  cases hc : listLookup fs "current" with
  | none => simp [wellTypedCurrent, listLookup, isDictOpt]
  | some c => rw [hc] at h; simpa [wellTypedCurrentOpt] using h

theorem forecast_parts (fs : List (String × PyVal))
    (hfc : wellTypedForecastObj (listLookup fs "forecast") = true) :
    ∃ ffs, (listLookup fs "forecast").getD (.vdict []) = .vdict ffs ∧
      (listLookup ffs "forecastday").getD (.vlist []) = .vlist (forecastdayOf (.vdict fs)) ∧
      (forecastdayOf (.vdict fs)).all wellTypedDay = true := by
  cases hf : listLookup fs "forecast" with
  | none => exact ⟨[], rfl, by simp [forecastdayOf, hf, listLookup], by simp [forecastdayOf, hf]⟩
  | some v =>
    rw [hf] at hfc
    cases v with
    | vdict ffs =>
      simp only [wellTypedForecastObj] at hfc
      cases hfd : listLookup ffs "forecastday" with
      | none =>
        exact ⟨ffs, rfl, by simp [forecastdayOf, hf, hfd], by simp [forecastdayOf, hf, hfd]⟩
      | some w =>
        rw [hfd] at hfc
        cases w with
        | vlist ds =>
          refine ⟨ffs, rfl, by simp [forecastdayOf, hf, hfd], ?_⟩
          simpa [forecastdayOf, hf, hfd] using hfc
        | vstr s => simp at hfc
        | vint n => simp at hfc
        | vnone => simp at hfc
        | vdict g => simp at hfc
    | vstr s => simp [wellTypedForecastObj] at hfc
    | vint n => simp [wellTypedForecastObj] at hfc
    | vnone => simp [wellTypedForecastObj] at hfc
    | vlist xs => simp [wellTypedForecastObj] at hfc

theorem clean_wt_forward (raw : PyVal) (h : wellTypedPayload raw = true) :
    ∃ d entries, cleanWeatherData raw = .ok d ∧
      dictLookup d "forecast" = some (.vlist entries) ∧
      entries.length = (forecastdayOf raw).length ∧
      ∀ i (h1 : i < (forecastdayOf raw).length) (h2 : i < entries.length),
        cleanForecastEntry (forecastdayOf raw)[i] = .ok entries[i] := by
  cases raw with
  | vdict fs =>
    simp only [wellTypedPayload, Bool.and_eq_true] at h
    obtain ⟨⟨hloc, hcur⟩, hfc⟩ := h
    obtain ⟨lfs, hlfs⟩ := getD_dict_of_isDictOpt _ hloc
    have hwc := currentData_wt fs hcur
    obtain ⟨cur, hcurok⟩ := cleanCurrent_ok_of_wt _ hwc
    obtain ⟨ffs, hffs, hfd, hall⟩ := forecast_parts fs hfc
    have hallmem : ∀ x ∈ forecastdayOf (.vdict fs), ∃ y, cleanForecastEntry x = .ok y :=
      fun x hx => cleanForecastEntry_ok_of_wt x (List.all_eq_true.mp hall x hx)
    obtain ⟨entries, hmap, hlen, hpt⟩ := mapMExcept_ok_of_all _ _ hallmem
    refine ⟨.vdict [
        ("location", .vstr (pyStr ((listLookup lfs "name").getD (.vstr "Unknown")) ++ ", " ++
          pyStr ((listLookup lfs "country").getD (.vstr "Unknown")))),
        ("local_time", (listLookup lfs "localtime").getD (.vstr "N/A")),
        ("current", cur),
        ("forecast", .vlist entries)], entries, ?_, ?_, hlen, hpt⟩
    · simp only [cleanWeatherData, pyGet, ok_bind, hlfs, hffs, hcurok, hfd]
      simp only [ok_bind, pyIter, hmap]
      rfl
    · rfl
  | vstr s => simp [wellTypedPayload] at h
  | vint n => simp [wellTypedPayload] at h
  | vnone => simp [wellTypedPayload] at h
  | vlist xs => simp [wellTypedPayload] at h

theorem fetch_success_from_clean (o : WeatherOracle) (loc : String) (d : Int) (data : PyVal)
    (h : fetchRawWeather o loc d = .success data) :
    ∃ raw, cleanWeatherData raw = .ok data := by
  unfold fetchRawWeather at h
  cases hout : o.fetchHttp loc d with
  | status code body =>
    rw [hout] at h
    simp only [] at h
    split_ifs at h
    cases hcb : cleanWeatherData body with
    | ok cleaned => rw [hcb] at h; cases h; exact ⟨body, hcb⟩
    | error e => rw [hcb] at h; cases h
  | timeout => rw [hout] at h; cases h
  | requestError => rw [hout] at h; cases h
  | otherError => rw [hout] at h; cases h

theorem getWeather_ok_no_phase3 (o : WeatherOracle) (q : String) :
    ∃ r, getWeather o q = .ok r ∧ r.phase3Handler = false := by
  unfold getWeather
  by_cases h0 : q = "" ∨ pyStrip q = ""
  · rw [if_pos h0]; exact ⟨_, rfl, rfl⟩
  · rw [if_neg h0]
    cases hex : extractLocationAndDays o (pyStrip q) with
    | error e => exact ⟨_, rfl, rfl⟩
    | ok p =>
      obtain ⟨cityOpt, days⟩ := p
      simp only []
      cases cityOpt with
      | none => exact ⟨_, rfl, rfl⟩
      | some city =>
        simp only []
        by_cases hc : city = ""
        · rw [if_pos hc]; exact ⟨_, rfl, rfl⟩
        · rw [if_neg hc]
          cases hfr : fetchRawWeather o city days with
          | failure err =>
            simp only []
            split_ifs <;> exact ⟨_, rfl, rfl⟩
          | success data =>
            simp only []
            obtain ⟨raw, hclean⟩ := fetch_success_from_clean o city days data hfr
            obtain ⟨s, hs⟩ := genConv_ok_of_clean o (pyStrip q) raw data hclean
            rw [hs]
            exact ⟨_, rfl, rfl⟩

/-- C8: for every query that is empty or whitespace-only, `get_weather`
immediately returns the fixed prompt asking for a location, with an empty
external-call trace (no extraction call, no gateway fetch). -/
theorem C8_empty_query (o : WeatherOracle) (q : String)
    (h : q.data.all Char.isWhitespace = true) :
    getWeather o q = .ok ⟨askLocationMsg, [], false⟩ := by
  unfold getWeather
  rw [if_pos (Or.inr (pyStrip_eq_empty q h))]

/-- Witness for C8 at the whitespace query. -/
theorem C8_witness :
    ("  ".data.all Char.isWhitespace = true) ∧
      getWeather oWeatherBasic "  " = .ok ⟨askLocationMsg, [], false⟩ :=
  ⟨by decide, C8_empty_query oWeatherBasic "  " (by decide)⟩

/-- C1 counterexample: the query "hi!" matches both greeting tables after
case-normalization and punctuation stripping, yet `handle_theory` does not
return the fixed introduction and issues a synthesis call: its own greeting
check does no punctuation stripping, so the query falls through to
`search` (whose internal greeting branch answers locally) and the result is
then passed through `generate_summarized_response`. -/
theorem C1_counterexample :
    searchGreetings.contains (cleanedQuery "hi!") = true ∧
    theoryGreetings.contains (cleanedQuery "hi!") = true ∧
    handleTheory oTheorySynthOk "hi!" =
      ("SYNTH-OUTPUT", [.synthesis "hi!" searchGreetingReply]) ∧
    "SYNTH-OUTPUT" ≠ introText :=
  ⟨by decide, by decide, rfl, by decide⟩

/-- C1 (amended): for every query whose lowercased, whitespace-stripped form
is exactly in the `handle_theory` greeting table (no punctuation stripping),
`handle_theory` returns the fixed introduction text and issues zero external
provider calls. -/
theorem C1_greeting_short_circuit (o : TheoryOracle) (q : String)
    (h : theoryGreetings.contains (pyStrip (lowerStr q)) = true) :
    handleTheory o q = (introText, []) := by
  unfold handleTheory
  rw [if_pos h]

/-- Witness for C1 at the query " Hello ". -/
theorem C1_witness : handleTheory oTheorySynthOk " Hello " = (introText, []) :=
  C1_greeting_short_circuit oTheorySynthOk " Hello " (by decide)

/-- C2 counterexample: a retrieval (RAG) error whose text contains "429"
does not yield the rate-limit message when the chat fallback succeeds: the
inner handler swallows the RAG error and `search` returns the chat answer. -/
theorem C2_counterexample :
    oGeminiRag429.ragCall "what is a cyclone" = .error "429 RESOURCE_EXHAUSTED: quota exceeded" ∧
    strContains "429 RESOURCE_EXHAUSTED: quota exceeded" "429" = true ∧
    geminiSearch oGeminiRag429 "what is a cyclone" =
      ("chat fallback answer",
       [.ragSearch "what is a cyclone", .chatMode (chatContents "what is a cyclone")]) ∧
    "chat fallback answer" ≠ rateLimitMsg :=
  ⟨rfl, by decide, rfl, by decide⟩

/-- C2 (amended): an error reaching the outer handler - that is, a
chat-fallback call error, the RAG call having been skipped or having failed -
whose text contains "429" always yields the rate-limit message, regardless of
any other content of the error text. -/
theorem C2_rate_limit_on_outer_error (o : GeminiOracle) (q e : String)
    (hng : searchGreetings.contains (cleanedQuery q) = false)
    (hrag : pyTruthy o.storeId = false ∨ ∃ e2, o.ragCall q = .error e2)
    (hchat : o.chatCall (chatContents q) = .error e)
    (h429 : strContains e "429" = true) :
    (geminiSearch o q).1 = rateLimitMsg := by
  by_cases ht : pyTruthy o.storeId = true
  · have he2 : ∃ e2, o.ragCall q = .error e2 := by
      cases hrag with
      | inl hfalse => rw [hfalse] at ht; exact absurd ht (by simp)
      | inr h => exact h
    obtain ⟨e2, he2⟩ := he2
    have hng2 : cleanedQuery q ∉ searchGreetings := by simpa using hng
    simp [geminiSearch, hng2, ht, he2, hchat, h429]
  · have hf : pyTruthy o.storeId = false := by simpa using ht
    have hng2 : cleanedQuery q ∉ searchGreetings := by simpa using hng
    simp [geminiSearch, hng2, hf, hchat, h429]

/-- Witness for C2 with no store configured and a failing chat call. -/
theorem C2_witness : (geminiSearch oGeminiChat429 "explain rainfall patterns").1 = rateLimitMsg :=
  C2_rate_limit_on_outer_error oGeminiChat429 "explain rainfall patterns"
    "got HTTP 429 from provider" (by decide) (Or.inl rfl) rfl (by decide)

/-- C3 counterexample: with no detected city and remembered city "Paris",
the query "paris and paris weather" is passed through unchanged to the
Weather Orchestrator and contains the prior city twice case-insensitively,
not exactly once. -/
theorem C3_counterexample :
    chatEndpointStep (some "weather") none (some "Paris") "paris and paris weather" =
      (.liveWeather "paris and paris weather" "Paris", some "Paris") ∧
    countOccurCI "paris and paris weather" "Paris" = 2 :=
  ⟨rfl, by decide⟩

/-- C3 (amended): when Intent Classification yields no city and Session
Memory holds a prior (non-empty) city, the weather branch passes
`mergeQuery` of the query and that city to the Weather Orchestrator; the
merged query contains the prior city at least once as a case-insensitive
substring, and no duplication is introduced: if the query already contains
the city case-insensitively it is passed through unchanged. -/
theorem C3_merge_no_duplication (q c : String) (h : c ≠ "") :
    (chatEndpointStep (some "weather") none (some c) q).1 = .liveWeather (mergeQuery q c) c ∧
    strContains (lowerStr (mergeQuery q c)) (lowerStr c) = true ∧
    (strContains (lowerStr q) (lowerStr c) = true → mergeQuery q c = q) := by
  refine ⟨?_, ?_, ?_⟩
  · simp [chatEndpointStep, sessionUpdate, h]
  · unfold mergeQuery
    by_cases hq : strContains (lowerStr q) (lowerStr c) = true
    · rw [if_pos hq]; exact hq
    · rw [if_neg hq]
      apply strContains_of_parts _ _ ((lowerStr q).data ++ (lowerStr " in ").data) []
      simp [lowerStr, String.data_append, List.append_assoc]
  · intro hq; unfold mergeQuery; rw [if_pos hq]

/-- Witness for C3 at a query not containing the remembered city. -/
theorem C3_witness :
    (chatEndpointStep (some "weather") none (some "Paris") "how cold is it").1 =
      .liveWeather (mergeQuery "how cold is it" "Paris") "Paris" ∧
    strContains (lowerStr (mergeQuery "how cold is it" "Paris")) (lowerStr "Paris") = true ∧
    (strContains (lowerStr "how cold is it") (lowerStr "Paris") = true →
      mergeQuery "how cold is it" "Paris" = "how cold is it") :=
  C3_merge_no_duplication "how cold is it" "Paris" (by decide)

/-- C7 counterexample: a classified city that is the empty string is
non-absent and distinct from "NULL", yet Session Memory is not set to it;
the prior value is kept and used instead. -/
theorem C7_counterexample :
    ("" : String) ≠ "NULL" ∧
    sessionUpdate (some "Paris") (some "") = (some "Paris", some "Paris") ∧
    (some "Paris" : Option String) ≠ some "" :=
  ⟨by decide, rfl, by decide⟩

/-- C7 (amended): a classified non-empty city other than the literal
"NULL" overwrites Session Memory and becomes the final city; an absent,
empty, or "NULL" city leaves memory unchanged (read, not written) and the
prior value is used; hence the stored city persists across any sequence of
requests whose classifications yield only absent, empty, or "NULL" cities. -/
theorem C7_session_memory :
    (∀ (last : Option String) (c : String), c ≠ "" → c ≠ "NULL" →
       sessionUpdate last (some c) = (some c, some c)) ∧
    (∀ last : Option String, sessionUpdate last none = (last, last)) ∧
    (∀ last : Option String, sessionUpdate last (some "") = (last, last) ∧
       sessionUpdate last (some "NULL") = (last, last)) ∧
    (∀ (last : Option String) (ds : List (Option String)),
       (∀ d ∈ ds, d = none ∨ d = some "" ∨ d = some "NULL") → sessionRun last ds = last) := by
  refine ⟨?_, ?_, ?_, ?_⟩
  · intro last c h1 h2; simp [sessionUpdate, h1, h2]
  · intro last; rfl
  · intro last; exact ⟨by simp [sessionUpdate], by simp [sessionUpdate]⟩
  · intro last ds h
    induction ds generalizing last with
    | nil => rfl
    | cons d t ih =>
      have hd := h d (List.mem_cons_self d t)
      have hstep : (sessionUpdate last d).1 = last := by
        rcases hd with h1 | h1 | h1 <;> subst h1 <;> simp [sessionUpdate]
      unfold sessionRun
      simp only [List.foldl_cons]
      rw [hstep]
      exact ih last fun x hx => h x (List.mem_cons_of_mem d hx)

/-- Witness for C7: one write followed by a persistence run. -/
theorem C7_witness :
    sessionUpdate none (some "Delhi") = (some "Delhi", some "Delhi") ∧
    sessionRun (some "Delhi") [none, some "", some "NULL"] = some "Delhi" :=
  ⟨C7_session_memory.1 none "Delhi" (by decide) (by decide),
   C7_session_memory.2.2.2 (some "Delhi") [none, some "", some "NULL"] (by decide)⟩

/-- The city-not-found sentence differs from the generic-issue sentence for
the "City not found" error category (they differ at character 2). -/
theorem msg_ne_generic (c : String) :
    cityNotFoundMsg c ≠ genericIssueMsg "City not found" := by
  intro h
  have h2 := congrArg (fun s => s.data.get? 2) h
  have h3 : (some 'c' : Option Char) = some 'e' := h2
  simp at h3

/-- C5: whenever the weather provider answers HTTP 400 for the extracted
city, `get_weather` returns exactly the "couldn't find weather data for
'<city>'" message naming that city, and that message differs from the
generic failure sentence and from every other error sentence of the fetch
branch. -/
theorem C5_status_400 (o : WeatherOracle) (q c : String) (dro : Option Int) (body : PyVal)
    (h1 : pyStrip q ≠ "")
    (h2 : o.extract (pyStrip q) = .ok (some c, dro))
    (h3 : c ≠ "")
    (h4 : upperStr c ≠ "NULL")
    (h5 : o.fetchHttp c (clampDays (dro.getD 1)) = .status 400 body) :
    getWeather o q = .ok ⟨cityNotFoundMsg c,
      [.extractCall (pyStrip q), .gatewayFetch c (clampDays (dro.getD 1))], false⟩ ∧
    cityNotFoundMsg c ≠ genericIssueMsg "City not found" ∧
    cityNotFoundMsg c ≠ techDifficultiesMsg ∧
    cityNotFoundMsg c ≠ tooLongMsg := by
  have hq : q ≠ "" := by
    intro hq0; apply h1; rw [hq0]; rfl
  have hex : extractLocationAndDays o (pyStrip q) = .ok (some c, clampDays (dro.getD 1)) := by
    unfold extractLocationAndDays
    rw [h2]
    simp only []
    have : ¬(c ≠ "" ∧ upperStr c = "NULL") := by
      intro hcontra; exact h4 hcontra.2
    rw [if_neg this]
  have hfetch : fetchRawWeather o c (clampDays (dro.getD 1)) = .failure "City not found" := by
    unfold fetchRawWeather
    rw [h5]
    simp
  refine ⟨?_, msg_ne_generic c, ?_, ?_⟩
  · unfold getWeather
    rw [if_neg (by simp [hq, h1])]
    rw [hex]
    simp only []
    rw [if_neg h3]
    rw [hfetch]
    simp only []
    rw [if_pos (by decide)]
  · intro h
    have h2x := congrArg (fun s => s.data.get? 1) h
    have h3x : (some ' ' : Option Char) = some '\'' := h2x
    simp at h3x
  · intro h
    have h2x := congrArg (fun s => s.data.get? 0) h
    have h3x : (some 'I' : Option Char) = some 'T' := h2x
    simp at h3x

/-- Witness for C5 at a concrete oracle answering status 400. -/
theorem C5_witness :
    getWeather oWeather400 "weather in atlantis" = .ok ⟨cityNotFoundMsg "Atlantis",
      [.extractCall (pyStrip "weather in atlantis"),
       .gatewayFetch "Atlantis" (clampDays ((some (2:Int)).getD 1))], false⟩ ∧
    cityNotFoundMsg "Atlantis" ≠ genericIssueMsg "City not found" ∧
    cityNotFoundMsg "Atlantis" ≠ techDifficultiesMsg ∧
    cityNotFoundMsg "Atlantis" ≠ tooLongMsg :=
  C5_status_400 oWeather400 "weather in atlantis" "Atlantis" (some 2) .vnone
    (by decide) rfl (by decide) (by decide) rfl

/-- C6: when synthesis fails on a snapshot produced by
`_clean_weather_data`, the templated fallback reply contains the snapshot's
location string and its current-temperature string verbatim. -/
theorem C6_fallback_roundtrip (o : WeatherOracle) (q : String) (raw d : PyVal) (msg : String)
    (hclean : cleanWeatherData raw = .ok d)
    (hsynth : o.synth q d = .error msg) :
    ∃ locS tempS fb,
      dictLookup d "location" = some (.vstr locS) ∧
      (dictLookup d "current").bind (fun cur => dictLookup cur "temp") = some (.vstr tempS) ∧
      generateConversationalResponse o q d = .ok fb ∧
      strContains fb locS = true ∧ strContains fb tempS = true := by
  obtain ⟨loc, lt, tS, fS, cv, wS, wd, hS, cS, uv, entries, hd⟩ := clean_ok_shape raw d hclean
  subst hd
  refine ⟨loc, tS, "Weather in " ++ loc ++ ": " ++ tS ++ ", " ++ pyStr cv ++ ".",
    rfl, rfl, ?_, ?_, ?_⟩
  · unfold generateConversationalResponse
    rw [hsynth]
    rfl
  · apply strContains_of_parts _ _ ("Weather in ".data)
      ((": " ++ tS ++ ", " ++ pyStr cv ++ ".").data)
    simp [String.data_append, List.append_assoc]
  · apply strContains_of_parts _ _ (("Weather in " ++ loc ++ ": ").data)
      ((", " ++ pyStr cv ++ ".").data)
    simp [String.data_append, List.append_assoc]

/-- Witness for C6 at the defaulted snapshot of an empty payload. -/
theorem C6_witness :
    ∃ locS tempS fb,
      dictLookup defaultSnapshot "location" = some (.vstr locS) ∧
      (dictLookup defaultSnapshot "current").bind (fun cur => dictLookup cur "temp") =
        some (.vstr tempS) ∧
      generateConversationalResponse oWeatherSynthFail "how hot is it" defaultSnapshot =
        .ok fb ∧
      strContains fb locS = true ∧ strContains fb tempS = true :=
  C6_fallback_roundtrip oWeatherSynthFail "how hot is it" (.vdict []) defaultSnapshot
    "LLM down" rfl rfl

/-- Bounds of the `max(1, min(days, 7))` clamp. -/
theorem clampDays_bounds (d : Int) : 1 ≤ clampDays d ∧ clampDays d ≤ 7 := by
  unfold clampDays; omega

/-- Every successful extraction returns a clamped day count. -/
theorem extract_days_clamped (o : WeatherOracle) (q : String) (cityOpt : Option String)
    (days : Int) (h : extractLocationAndDays o q = .ok (cityOpt, days)) :
    ∃ draw, days = clampDays draw := by
  unfold extractLocationAndDays at h
  cases hoe : o.extract q with
  | error e => rw [hoe] at h; cases h
  | ok pr =>
    rw [hoe] at h
    obtain ⟨cr, dr⟩ := pr
    simp only [] at h
    cases h
    exact ⟨dr.getD 1, rfl⟩

/-- C4: every gateway fetch recorded in a `get_weather` trace carries a
days argument in [1, 7]; and the clamp maps values below 1 to 1, values
above 7 to 7, and is the identity inside the range. -/
theorem C4_days_clamped :
    (∀ (o : WeatherOracle) (q : String) (r : GWResult) (loc : String) (d : Int),
       getWeather o q = .ok r → WCall.gatewayFetch loc d ∈ r.calls → 1 ≤ d ∧ d ≤ 7) ∧
    (∀ d : Int, 1 ≤ clampDays d ∧ clampDays d ≤ 7 ∧
       (d < 1 → clampDays d = 1) ∧ (7 < d → clampDays d = 7) ∧
       (1 ≤ d → d ≤ 7 → clampDays d = d)) := by
  constructor
  · intro o q r loc d hgw hmem
    unfold getWeather at hgw
    by_cases h0 : q = "" ∨ pyStrip q = ""
    · rw [if_pos h0] at hgw; cases hgw; simp at hmem
    · rw [if_neg h0] at hgw
      cases hex : extractLocationAndDays o (pyStrip q) with
      | error e => rw [hex] at hgw; simp only [] at hgw; cases hgw; simp at hmem
      | ok p =>
        obtain ⟨cityOpt, days⟩ := p
        rw [hex] at hgw
        simp only [] at hgw
        obtain ⟨draw, hdraw⟩ := extract_days_clamped o (pyStrip q) cityOpt days hex
        cases cityOpt with
        | none => cases hgw; simp at hmem
        | some city =>
          simp only [] at hgw
          by_cases hc : city = ""
          · rw [if_pos hc] at hgw; cases hgw; simp at hmem
          · rw [if_neg hc] at hgw
            cases hfr : fetchRawWeather o city days with
            | failure err =>
              rw [hfr] at hgw
              simp only [] at hgw
              split_ifs at hgw <;>
                (cases hgw; simp at hmem;
                 obtain ⟨hl, hd⟩ := hmem; rw [hd, hdraw]; exact clampDays_bounds draw)
            | success data =>
              rw [hfr] at hgw
              simp only [] at hgw
              cases hgc : generateConversationalResponse o (pyStrip q) data with
              | ok resp =>
                rw [hgc] at hgw
                simp only [] at hgw
                cases hgw
                simp at hmem
                obtain ⟨hl, hd⟩ := hmem
                rw [hd, hdraw]; exact clampDays_bounds draw
              | error e =>
                rw [hgc] at hgw
                simp only [] at hgw
                simp only [except_bind_ok, except_pure_ok] at hgw
                obtain ⟨l1, _, c1, _, t1, _, cd1, _, hr⟩ := hgw
                subst hr
                simp at hmem
                obtain ⟨hl, hd⟩ := hmem
                rw [hd, hdraw]; exact clampDays_bounds draw
  · intro d
    refine ⟨?_, ?_, ?_, ?_, ?_⟩ <;> unfold clampDays <;> omega

/-- Witness for C4: extraction yields 9 days, the gateway is fetched with 7. -/
theorem C4_witness :
    getWeather oWeatherBasic "weather" = .ok ⟨"sunny answer",
      [.extractCall "weather", .gatewayFetch "Paris" 7, .synthCall "weather"], false⟩ ∧
    (1 ≤ (7:Int) ∧ (7:Int) ≤ 7) :=
  ⟨rfl, C4_days_clamped.1 oWeatherBasic "weather"
    ⟨"sunny answer", [.extractCall "weather", .gatewayFetch "Paris" 7, .synthCall "weather"], false⟩
    "Paris" 7 rfl (by decide)⟩

/-- C9 counterexample: `_clean_weather_data` is not total on arbitrary
dictionaries: on `{"location": 5}` Python raises `AttributeError` when it
calls `.get` on the number. -/
theorem C9_counterexample :
    cleanWeatherData (.vdict [("location", .vint 5)]) = .error "AttributeError" := rfl

/-- C9 (amended): on every schema-conformant payload dictionary
`_clean_weather_data` succeeds and its forecast list has exactly one entry
per element of the payload's `forecast.forecastday` list, in the same order,
each entry produced by the per-day normalization; and a forecast day with
all fields absent normalizes to the "N/A"-defaulted entry. -/
theorem C9_clean_normalization :
    (∀ raw : PyVal, wellTypedPayload raw = true →
       ∃ d entries, cleanWeatherData raw = .ok d ∧
         dictLookup d "forecast" = some (.vlist entries) ∧
         entries.length = (forecastdayOf raw).length ∧
         ∀ i (h1 : i < (forecastdayOf raw).length) (h2 : i < entries.length),
           cleanForecastEntry (forecastdayOf raw)[i] = .ok entries[i]) ∧
    cleanForecastEntry (.vdict []) = .ok (.vdict [("date", .vstr "N/A"),
      ("max_temp", .vstr "N/A°C"), ("min_temp", .vstr "N/A°C"), ("avg_temp", .vstr "N/A°C"),
      ("condition", .vstr "N/A"), ("rain_chance", .vstr "N/A%"),
      ("max_wind", .vstr "N/A kph")]) :=
  ⟨clean_wt_forward, rfl⟩

/-- Witness for C9 at a payload with one all-absent forecast day. -/
theorem C9_witness :
    ∃ d entries, cleanWeatherData rawOneDay = .ok d ∧
      dictLookup d "forecast" = some (.vlist entries) ∧
      entries.length = (forecastdayOf rawOneDay).length ∧
      ∀ i (h1 : i < (forecastdayOf rawOneDay).length) (h2 : i < entries.length),
        cleanForecastEntry (forecastdayOf rawOneDay)[i] = .ok entries[i] :=
  C9_clean_normalization.1 rawOneDay (by decide)

/-- C10 counterexample: `_generate_conversational_response` does raise on
an ill-shaped weather dictionary: with a failing synthesis call and
`{"current": 0}`, the fallback's `.get` on the number raises
`AttributeError`. -/
theorem C10_counterexample :
    generateConversationalResponse oWeatherSynthFail "query" (.vdict [("current", .vint 0)]) =
      .error "AttributeError" := rfl

/-- C10 (amended): on every dictionary produced by `_clean_weather_data` -
the only values `get_weather` ever passes it - the response generator
returns a string and never raises, so `get_weather` always returns without
running its phase-3 exception handler. -/
theorem C10_phase3_unreachable :
    (∀ (o : WeatherOracle) (q : String) (raw d : PyVal),
       cleanWeatherData raw = .ok d → ∃ s, generateConversationalResponse o q d = .ok s) ∧
    (∀ (o : WeatherOracle) (q : String), ∃ r, getWeather o q = .ok r ∧ r.phase3Handler = false) :=
  ⟨genConv_ok_of_clean, getWeather_ok_no_phase3⟩

/-- Witness for C10 at the defaulted snapshot. -/
theorem C10_witness :
    ∃ s, generateConversationalResponse oWeatherSynthFail "today" defaultSnapshot = .ok s :=
  C10_phase3_unreachable.1 oWeatherSynthFail "today" (.vdict []) defaultSnapshot rfl
